import Mathlib

/-!
Verification development for the challenge-bypass token server.

The definitions below are a shallow embedding of the issuer store, the
redemption ledger (relational v1 backend and key-value v2 backend), the
token issue/redeem handlers, the rotation and retirement phases, and the
cron driver. Time is modelled in abstract day/second units as plain
naturals; SQL NULL columns are Option; the database is a list of rows;
query clauses (WHERE / ORDER BY / LIMIT) are filters, sorts and heads on
that list. Random UUIDs and random signing keys are drawn from a counter
held in the state. Text marshalling of preimages is the identity on
strings. Driver-level failures are part of the embedding: an sqlx Select
whose destination is passed by value errors before producing rows, and an
Exec whose bind-argument count does not match the placeholder count of the
statement text errors before running the statement.
-/

deriving instance DecidableEq for Except

namespace ChallengeBypass

/-- Issuer row, following the issuers table columns: id (uuid), issuer_type,
signing_key, max_tokens, created_at, expires_at (nullable), rotated_at
(nullable), retired_at (nullable), version. -/
structure IssuerRow where
  id : Nat
  issuerType : String
  signingKey : Nat
  maxTokens : Nat
  createdAt : Nat
  expiresAt : Option Nat
  rotatedAt : Option Nat
  retiredAt : Option Nat
  version : Nat
deriving DecidableEq, Repr

/-- Error kinds surfaced by the store layer: the named sentinel errors of
the db module plus backend-native errors (postgres errors carry a code,
aws errors carry an exception name). -/
inductive SrvError where
  | issuerNotFound
  | duplicateRedemption
  | redemptionNotFound
  | pq (code : String)
  | aws (name : String)
  | sqlx (msg : String)
  | bindMismatch (supplied required : Nat)
deriving DecidableEq, Repr

/-- Row comparison realising the SQL clause ORDER BY expires_at DESC NULLS
LAST, created_at DESC: a row precedes another when its expiry is larger,
null expiries sort last, ties are broken by larger created_at. -/
def issuerOrd (a b : IssuerRow) : Prop :=
  match a.expiresAt, b.expiresAt with
  | some x, some y => y < x ∨ (x = y ∧ b.createdAt ≤ a.createdAt)
  | some _, none => True
  | none, some _ => False
  | none, none => b.createdAt ≤ a.createdAt

/-- Boolean mirror of issuerOrd, giving it an executable decision procedure. -/
def issuerLe (a b : IssuerRow) : Bool :=
  match a.expiresAt, b.expiresAt with
  | some x, some y => decide (y < x) || (decide (x = y) && decide (b.createdAt ≤ a.createdAt))
  | some _, none => true
  | none, some _ => false
  | none, none => decide (b.createdAt ≤ a.createdAt)

instance : DecidableRel issuerOrd := fun a b =>
  decidable_of_iff (issuerLe a b = true) (by
    unfold issuerLe issuerOrd
    rcases ha : a.expiresAt with _ | x <;> rcases hb : b.expiresAt with _ | y <;>
      simp [ha, hb])

instance : IsTotal IssuerRow issuerOrd := by
  constructor
  intro a b
  unfold issuerOrd
  rcases ha : a.expiresAt with _ | x <;> rcases hb : b.expiresAt with _ | y <;>
    simp only [] <;> first | omega | exact Or.inr trivial | exact Or.inl trivial

instance : IsTrans IssuerRow issuerOrd := by
  constructor
  intro a b c hab hbc
  unfold issuerOrd at hab hbc ⊢
  rcases ha : a.expiresAt with _ | x <;> rcases hb : b.expiresAt with _ | y <;>
    rcases hc : c.expiresAt with _ | z <;>
    simp only [ha, hb, hc] at hab hbc ⊢ <;> omega

/-- Row comparison realising the SQL clause ORDER BY expires_at, created_at
DESC of the single-issuer fetch: ascending expiry (postgres default sorts
nulls last for ascending order), ties broken by larger created_at. -/
def issuerOrdAsc (a b : IssuerRow) : Prop :=
  match a.expiresAt, b.expiresAt with
  | some x, some y => x < y ∨ (x = y ∧ b.createdAt ≤ a.createdAt)
  | some _, none => True
  | none, some _ => False
  | none, none => b.createdAt ≤ a.createdAt

/-- Boolean mirror of issuerOrdAsc. -/
def issuerLeAsc (a b : IssuerRow) : Bool :=
  match a.expiresAt, b.expiresAt with
  | some x, some y => decide (x < y) || (decide (x = y) && decide (b.createdAt ≤ a.createdAt))
  | some _, none => true
  | none, some _ => false
  | none, none => decide (b.createdAt ≤ a.createdAt)

instance : DecidableRel issuerOrdAsc := fun a b =>
  decidable_of_iff (issuerLeAsc a b = true) (by
    unfold issuerLeAsc issuerOrdAsc
    rcases ha : a.expiresAt with _ | x <;> rcases hb : b.expiresAt with _ | y <;>
      simp [ha, hb])

instance : IsTotal IssuerRow issuerOrdAsc := by
  constructor
  intro a b
  unfold issuerOrdAsc
  rcases ha : a.expiresAt with _ | x <;> rcases hb : b.expiresAt with _ | y <;>
    simp only [] <;> first | omega | exact Or.inr trivial | exact Or.inl trivial

instance : IsTrans IssuerRow issuerOrdAsc := by
  constructor
  intro a b c hab hbc
  unfold issuerOrdAsc at hab hbc ⊢
  rcases ha : a.expiresAt with _ | x <;> rcases hb : b.expiresAt with _ | y <;>
    rcases hc : c.expiresAt with _ | z <;>
    simp only [ha, hb, hc] at hab hbc ⊢ <;> omega

/-- Rows matched by WHERE issuer_type equals the given type AND retired_at
IS NULL. -/
def nonRetiredOfType (issuerType : String) (db : List IssuerRow) : List IssuerRow :=
  db.filter (fun i => decide (i.issuerType = issuerType ∧ i.retiredAt = none))

/-- In-memory issuers cache: issuer_type key to cached list, as stored under
the "issuers" cache created by initDb. -/
abbrev IssuersCache := List (String × List IssuerRow)

/-- Cache read: Go skips the cache when the caches map is nil, otherwise a
Get on the issuers cache. -/
def cacheGetIssuers (ocache : Option IssuersCache) (issuerType : String) :
    Option (List IssuerRow) :=
  match ocache with
  | none => none
  | some cache => (cache.find? (fun e => decide (e.1 = issuerType))).map (fun e => e.2)

/-- Cache write: SetDefault replaces the entry for the key; a nil caches map
is left untouched. -/
def cacheSetIssuers (ocache : Option IssuersCache) (issuerType : String)
    (issuers : List IssuerRow) : Option IssuersCache :=
  match ocache with
  | none => none
  | some cache =>
    some ((issuerType, issuers) :: cache.filter (fun e => !decide (e.1 = issuerType)))

/-- An sqlx Select call: rows produced by the query reach the caller only
when the destination slice is passed by pointer; a destination passed by
value is rejected by sqlx with an error before any row is scanned. -/
def sqlxSelectIssuers (byPointer : Bool) (rows : List IssuerRow) :
    Except SrvError (List IssuerRow) :=
  match byPointer with
  | true => Except.ok rows
  | false =>
    Except.error (SrvError.sqlx "must pass a pointer, not a value, to StructScan destination")

/-- Result of a fetchIssuers call: a returned list, a returned error, or a
runtime panic from the failed interface type assertion on a cache hit. -/
inductive FetchIssuersResult where
  | ok (issuers : List IssuerRow)
  | err (e : SrvError)
  | assertPanic
deriving DecidableEq, Repr

/-- Embedding of fetchIssuers: the cache stores the issuers slice by value
while a hit asserts the pointer type, so any hit panics; on a miss the
SELECT carries the non-retired filter and the DESC NULLS LAST order, but
the destination slice is passed by value (the byPointer flag is false), so
the Select errors and is returned before the emptiness check, the
issuer-not-found branch and the cache write are reached. -/
def fetchIssuers (ocache : Option IssuersCache) (db : List IssuerRow)
    (issuerType : String) : FetchIssuersResult × Option IssuersCache :=
  match cacheGetIssuers ocache issuerType with
  | some _ => (FetchIssuersResult.assertPanic, ocache)
  | none =>
    match sqlxSelectIssuers false
        (List.insertionSort issuerOrd (nonRetiredOfType issuerType db)) with
    | Except.error e => (FetchIssuersResult.err e, ocache)
    | Except.ok issuers =>
      if issuers.length < 1 then
        (FetchIssuersResult.err SrvError.issuerNotFound, ocache)
      else
        (FetchIssuersResult.ok issuers, cacheSetIssuers ocache issuerType issuers)

/-- Example rows used to instantiate witnesses on concrete inputs. -/
def exIssuerOld : IssuerRow := ⟨1, "demo", 1, 40, 1, some 10, none, none, 1⟩

/-- Example row with a later expiry than exIssuerOld. -/
def exIssuerNew : IssuerRow := ⟨2, "demo", 2, 40, 5, some 20, none, none, 2⟩

/-- Example retired row. -/
def exIssuerRetired : IssuerRow := ⟨3, "demo", 3, 40, 2, some 30, some 9, some 9, 2⟩

/-- C2: fetchIssuers never returns any list at all: the Select passes the
destination slice by value, so every database-path call returns the sqlx
non-pointer error before producing rows, and a cache hit would panic on
the pointer type assertion; at the concrete failing input the live
non-retired demo issuers exist and would sort as the claim says, yet the
call returns the driver error instead of that list. -/
theorem fetchIssuers_always_fails :
    (∀ (ocache : Option IssuersCache) (db : List IssuerRow) (issuerType : String),
      (fetchIssuers ocache db issuerType).1 =
          FetchIssuersResult.err
            (SrvError.sqlx "must pass a pointer, not a value, to StructScan destination")
      ∨ (fetchIssuers ocache db issuerType).1 = FetchIssuersResult.assertPanic)
    ∧ (fetchIssuers none [exIssuerOld, exIssuerRetired, exIssuerNew] "demo").1 =
        FetchIssuersResult.err
          (SrvError.sqlx "must pass a pointer, not a value, to StructScan destination")
    ∧ List.insertionSort issuerOrd
        (nonRetiredOfType "demo" [exIssuerOld, exIssuerRetired, exIssuerNew]) =
      [exIssuerNew, exIssuerOld] := by
  refine ⟨?_, by decide, by decide⟩
  intro ocache db issuerType
  unfold fetchIssuers
  cases hc : cacheGetIssuers ocache issuerType <;> simp [sqlxSelectIssuers]

/-- C9: the issuer-not-found branch of fetchIssuers is unreachable: the
by-value Select errors on every database-path call before the emptiness
check runs, so the call never returns the issuer-not-found sentinel even
when the non-retired set of the type is empty, as at the concrete input
whose only demo issuer is retired. -/
theorem fetchIssuers_notFound_unreachable :
    (∀ (ocache : Option IssuersCache) (db : List IssuerRow) (issuerType : String),
      (fetchIssuers ocache db issuerType).1 ≠
        FetchIssuersResult.err SrvError.issuerNotFound)
    ∧ nonRetiredOfType "demo" [exIssuerRetired] = []
    ∧ (fetchIssuers none [exIssuerRetired] "demo").1 =
        FetchIssuersResult.err
          (SrvError.sqlx "must pass a pointer, not a value, to StructScan destination") := by
  refine ⟨?_, by decide, by decide⟩
  intro ocache db issuerType
  unfold fetchIssuers
  cases hc : cacheGetIssuers ocache issuerType <;> simp [sqlxSelectIssuers]

/-- Cache of single issuers keyed by type, as used by the single-issuer
fetch. -/
abbrev IssuerCacheV5 := List (String × IssuerRow)

/-- Cache read for the single-issuer fetch. -/
def cacheGetIssuer (ocache : Option IssuerCacheV5) (issuerType : String) :
    Option IssuerRow :=
  match ocache with
  | none => none
  | some cache => (cache.find? (fun e => decide (e.1 = issuerType))).map (fun e => e.2)

/-- Cache write for the single-issuer fetch. -/
def cacheSetIssuer (ocache : Option IssuerCacheV5) (issuerType : String)
    (issuer : IssuerRow) : Option IssuerCacheV5 :=
  match ocache with
  | none => none
  | some cache =>
    some ((issuerType, issuer) :: cache.filter (fun e => !decide (e.1 = issuerType)))

/-- Embedding of fetchIssuer, the single-issuer fetch used by the token
issue path: SELECT ... WHERE issuer_type equals the type ORDER BY
expires_at, created_at DESC LIMIT 1. The ORDER BY is ascending on
expires_at (postgres default) and the WHERE clause has no retired_at
filter; the first row of that order is returned, or the issuer-not-found
sentinel when the type has no rows. -/
def fetchIssuer (ocache : Option IssuerCacheV5) (db : List IssuerRow)
    (issuerType : String) : Except SrvError IssuerRow × Option IssuerCacheV5 :=
  match cacheGetIssuer ocache issuerType with
  | some cached => (Except.ok cached, ocache)
  | none =>
    match List.insertionSort issuerOrdAsc
        (db.filter (fun i => decide (i.issuerType = issuerType))) with
    | [] => (Except.error SrvError.issuerNotFound, ocache)
    | i :: _ => (Except.ok i, cacheSetIssuer ocache issuerType i)

/-- Definition written from the words of claim C4, for comparison with the
code: the current issuer of a type is the non-retired issuer with maximum
expires_at, nulls last, ties broken by created_at descending — the head of
the descending order on the non-retired set. -/
def specFetchCurrent (db : List IssuerRow) (issuerType : String) : Option IssuerRow :=
  (List.insertionSort issuerOrd (nonRetiredOfType issuerType db)).head?

/-- Example retired row whose expiry is earliest of the demo rows. -/
def exIssuerRetiredEarly : IssuerRow := ⟨4, "demo", 4, 40, 0, some 1, some 0, some 0, 1⟩

/-- C4: the single-issuer fetch orders by expires_at ascending and ignores
retired_at, so on a database with two live demo issuers it returns the
earliest-expiring one while the claim demands the latest-expiring one, and
on a database that also contains an earlier-expiring retired issuer it
returns that retired row. -/
theorem fetchIssuer_selects_earliest_not_latest :
    (fetchIssuer none [exIssuerOld, exIssuerNew] "demo").1 = Except.ok exIssuerOld
    ∧ specFetchCurrent [exIssuerOld, exIssuerNew] "demo" = some exIssuerNew
    ∧ exIssuerOld ≠ exIssuerNew
    ∧ (fetchIssuer none [exIssuerOld, exIssuerNew, exIssuerRetiredEarly] "demo").1 =
        Except.ok exIssuerRetiredEarly
    ∧ exIssuerRetiredEarly.retiredAt ≠ none := by decide

/-- Redemption row of the relational v1 ledger: the redemptions table
columns id (preimage text), issuer_type and payload; the ts column set to
NOW() at insert is not modelled, no claim depends on it. -/
structure RedemptionRow where
  id : String
  issuerType : String
  payload : String
deriving DecidableEq, Repr

/-- RedemptionV2, the key-value (dynamo) ledger item: issuerId, id
(preimage text), payload and the TTL drawn from the issuer expiry. -/
structure RedemptionV2 where
  issuerId : String
  id : String
  payload : String
  ttl : Nat
deriving DecidableEq, Repr

/-- Attribute names present on a marshalled RedemptionV2 item; MarshalMap
uses the json tags of the struct fields, so these are issuerId, id,
timestamp, payload and TTL. -/
def redemptionV2AttrNames (_item : RedemptionV2) : List String :=
  ["issuerId", "id", "timestamp", "payload", "TTL"]

/-- attribute_not_exists of the dynamo condition language, evaluated on an
existing item with the same key. -/
def attributeNotExists (attr : String) (item : RedemptionV2) : Bool :=
  !(redemptionV2AttrNames item).contains attr

/-- Condition expression of the conditional put in redeemTokenV2:
attribute_not_exists(issuer) AND attribute_not_exists(nonce). -/
def redeemV2Condition (item : RedemptionV2) : Bool :=
  attributeNotExists "issuer" item && attributeNotExists "nonce" item

/-- Dynamo PutItem with a condition expression on the redemption table,
whose composite primary key is the pair issuerId, id: with no existing
item under the key the put inserts; with an existing item the condition is
evaluated against it, a failing condition raises the conditional check
exception and a passing condition overwrites. -/
def dynamoPutRedemption (table : List RedemptionV2) (item : RedemptionV2) :
    Except SrvError (List RedemptionV2) :=
  match table.find? (fun r => decide (r.issuerId = item.issuerId ∧ r.id = item.id)) with
  | some existing =>
    if redeemV2Condition existing then
      Except.ok (item :: table.filter
        (fun r => !decide (r.issuerId = item.issuerId ∧ r.id = item.id)))
    else Except.error (SrvError.aws "ConditionalCheckFailedException")
  | none => Except.ok (table ++ [item])

/-- Embedding of redeemTokenV2: build the RedemptionV2 item from the
issuer id, the preimage text and the payload, with TTL from the issuer
expiry, and conditionally put it. -/
def redeemTokenV2 (issuer : IssuerRow) (preimageTxt payload : String)
    (table : List RedemptionV2) : Except SrvError (List RedemptionV2) :=
  dynamoPutRedemption table
    { issuerId := toString issuer.id, id := preimageTxt, payload := payload,
      ttl := issuer.expiresAt.getD 0 }

/-- Postgres unique-violation test used by redeemToken: a pq error with
code 23505. -/
def isPqUniqueViolation (e : SrvError) : Bool :=
  match e with
  | SrvError.pq code => decide (code = "23505")
  | _ => false

/-- INSERT INTO redemptions for the v1 relational ledger: the unique
constraint on the pair id, issuer_type makes a duplicate insert fail with
pq code 23505. -/
def v1InsertRedemption (tbl : List RedemptionRow) (id issuerType payload : String) :
    Except SrvError (List RedemptionRow) :=
  if tbl.any (fun r => decide (r.id = id ∧ r.issuerType = issuerType)) then
    Except.error (SrvError.pq "23505")
  else
    Except.ok (tbl ++ [⟨id, issuerType, payload⟩])

/-- Redemption ledger state: the relational redemptions table and the
key-value redemption table. -/
structure LedgerState where
  redemptions : List RedemptionRow
  dynamoRedemptions : List RedemptionV2
deriving DecidableEq, Repr

/-- Embedding of redeemToken: marshal the preimage (identity on strings);
for a version 1 issuer insert into the relational ledger, mapping a pq
23505 error to the duplicate-redemption sentinel; otherwise call
redeemTokenV2 and apply the same pq 23505 test to its error. -/
def redeemToken (issuer : IssuerRow) (preimage payload : String)
    (st : LedgerState) : Except SrvError Unit × LedgerState :=
  let preimageTxt := preimage
  if issuer.version = 1 then
    match v1InsertRedemption st.redemptions preimageTxt issuer.issuerType payload with
    | Except.error e =>
      if isPqUniqueViolation e then (Except.error SrvError.duplicateRedemption, st)
      else (Except.error e, st)
    | Except.ok tbl => (Except.ok (), { st with redemptions := tbl })
  else
    match redeemTokenV2 issuer preimageTxt payload st.dynamoRedemptions with
    | Except.error e =>
      if isPqUniqueViolation e then (Except.error SrvError.duplicateRedemption, st)
      else (Except.error e, st)
    | Except.ok tbl => (Except.ok (), { st with dynamoRedemptions := tbl })

/-- C1: for a version 2 issuer the conditional put names attributes issuer
and nonce, which no marshalled item carries, so a second redeemToken call
for the same issuer and preimage succeeds again (silently overwriting)
instead of returning the duplicate-redemption error the claim requires;
the pq-error test on the dynamo path could never have classified a dynamo
conditional failure either. -/
theorem redeemToken_v2_duplicate_not_detected :
    (redeemToken exIssuerNew "preimage1" "payload1" ⟨[], []⟩).1 = Except.ok ()
    ∧ (redeemToken exIssuerNew "preimage1" "payload1"
          (redeemToken exIssuerNew "preimage1" "payload1" ⟨[], []⟩).2).1 = Except.ok ()
    ∧ (redeemToken exIssuerNew "preimage1" "payload1"
          (redeemToken exIssuerNew "preimage1" "payload1" ⟨[], []⟩).2).1 ≠
        Except.error SrvError.duplicateRedemption := by decide

/-- Handler error shape: a message and an http status code; the handler
returns none on success. -/
structure AppError where
  message : String
  code : Nat
deriving DecidableEq, Repr

/-- Redeem request body: the preimage field t, the verification signature
and the payload; pointer fields are Option. -/
structure RedeemRequest where
  t : Option String
  signature : Option String
  payload : String
deriving DecidableEq, Repr

/-- Embedding of blindedTokenRedeemHandler after the issuer list has been
fetched: reject a nil preimage or signature with 400; walk the issuer list
in order calling VerifyTokenRedemption with the signing key of each
issuer (the abstract verify parameter) and stop at the first that
verifies; with no verifying issuer return 400 with the unverifiable
message and touch no ledger; otherwise redeemToken with the verified
issuer, mapping the duplicate-redemption sentinel to 409, any other error
to 500, success to an empty 200. -/
def blindedTokenRedeemHandler (verify : String → String → String → Nat → Bool)
    (issuers : List IssuerRow) (req : RedeemRequest) (st : LedgerState) :
    Option AppError × LedgerState :=
  match req.t, req.signature with
  | some preimage, some sig =>
    match issuers.find? (fun issuer => verify preimage sig req.payload issuer.signingKey) with
    | none => (some { message := "Could not verify that token redemption is valid",
                      code := 400 }, st)
    | some verifiedIssuer =>
      match redeemToken verifiedIssuer preimage req.payload st with
      | (Except.error e, st2) =>
        if e = SrvError.duplicateRedemption then
          (some { message := "Duplicate Redemption", code := 409 }, st2)
        else
          (some { message := "Could not mark token redemption", code := 500 }, st2)
      | (Except.ok _, st2) => (none, st2)
  | _, _ => (some { message := "Empty request", code := 400 }, st)

/-- C3: with a non-nil preimage and signature, the redeem handler walks the
issuer list in the given order; when no issuer verifies it returns 400
with the unverifiable message and leaves both ledger backends untouched;
when some issuer verifies, the redemption is recorded under the first
verifying issuer of the list. -/
theorem redeemHandler_first_verifying (verify : String → String → String → Nat → Bool)
    (issuers : List IssuerRow) (req : RedeemRequest) (st : LedgerState)
    (preimage sig : String)
    (ht : req.t = some preimage) (hs : req.signature = some sig) :
    ((∀ i ∈ issuers, verify preimage sig req.payload i.signingKey = false) →
      blindedTokenRedeemHandler verify issuers req st =
        (some { message := "Could not verify that token redemption is valid",
                code := 400 }, st))
    ∧ (∀ i, issuers.find? (fun issuer => verify preimage sig req.payload issuer.signingKey) =
          some i →
        (blindedTokenRedeemHandler verify issuers req st).2 =
          (redeemToken i preimage req.payload st).2) := by
  constructor
  · intro hnone
    have hfind : issuers.find?
        (fun issuer => verify preimage sig req.payload issuer.signingKey) = none :=
      List.find?_eq_none.mpr (fun i hi => by simp [hnone i hi])
    simp [blindedTokenRedeemHandler, ht, hs, hfind]
  · intro i hfind
    simp only [blindedTokenRedeemHandler, ht, hs, hfind]
    rcases hr : redeemToken i preimage req.payload st with ⟨res, st2⟩
    rcases res with e | u
    · by_cases hd : e = SrvError.duplicateRedemption <;> simp [hd]
    · simp

/-- Witness for C3: a verify function that accepts exactly signing key 1
picks the second issuer of the list, and the all-rejecting verify function
yields the 400 response with an unchanged ledger. -/
theorem redeemHandler_first_verifying_witness :
    (blindedTokenRedeemHandler (fun _ _ _ _ => false) [exIssuerOld, exIssuerNew]
        ⟨some "p", some "s", "pay"⟩ ⟨[], []⟩ =
      (some { message := "Could not verify that token redemption is valid",
              code := 400 }, ⟨[], []⟩))
    ∧ (blindedTokenRedeemHandler (fun _ _ _ k => decide (k = 1))
          [exIssuerOld, exIssuerNew] ⟨some "p", some "s", "pay"⟩ ⟨[], []⟩).2 =
        (redeemToken exIssuerOld "p" "pay" ⟨[], []⟩).2 := by
  constructor
  · exact (redeemHandler_first_verifying (fun _ _ _ _ => false)
      [exIssuerOld, exIssuerNew] ⟨some "p", some "s", "pay"⟩ ⟨[], []⟩
      "p" "s" rfl rfl).1 (by intro i _; rfl)
  · exact (redeemHandler_first_verifying (fun _ _ _ k => decide (k = 1))
      [exIssuerOld, exIssuerNew] ⟨some "p", some "s", "pay"⟩ ⟨[], []⟩
      "p" "s" rfl rfl).2 exIssuerOld (by decide)

/-- Issuer database state for the rotation and retirement phases: the
issuers table, a counter from which fresh uuids and fresh random signing
keys are drawn, and the ledger partitions provisioned so far. -/
structure IssuerDbState where
  issuers : List IssuerRow
  keyCtr : Nat
  partitions : List String
deriving DecidableEq, Repr

/-- WHERE clause of the rotation select: expires_at IS NOT NULL AND
rotated_at IS NULL AND expires_at < NOW() + window days AND
expires_at > NOW(). -/
def rotateEligible (expirationWindow now : Nat) (i : IssuerRow) : Bool :=
  match i.expiresAt with
  | some e => decide (i.rotatedAt = none) && decide (now < e) &&
      decide (e < now + expirationWindow)
  | none => false

/-- Successor row inserted by the rotation loop body: same issuer_type,
max_tokens defaulted to 40 when the stored value is 0, a fresh signing
key, expires_at moved renewalWindow days past the old expiry, version 2;
created_at and id come from the insert defaults. -/
def successorRow (renewalWindow now ctr : Nat) (issuer : IssuerRow) : IssuerRow :=
  { id := ctr, issuerType := issuer.issuerType, signingKey := ctr,
    maxTokens := if issuer.maxTokens = 0 then 40 else issuer.maxTokens,
    createdAt := now,
    expiresAt := issuer.expiresAt.map (fun e => e + renewalWindow),
    rotatedAt := none, retiredAt := none, version := 2 }

/-- One iteration of the rotation loop: INSERT the successor, then UPDATE
issuers SET rotated_at = now() WHERE id equals the id of the old issuer. -/
def rotateOne (renewalWindow now : Nat) (st : IssuerDbState) (issuer : IssuerRow) :
    IssuerDbState :=
  { st with
    issuers := (st.issuers ++ [successorRow renewalWindow now st.keyCtr issuer]).map
      (fun r => if r.id = issuer.id then { r with rotatedAt := some now } else r),
    keyCtr := st.keyCtr + 1 }

/-- Embedding of RotateIssuers: select the eligible rows, then run the
insert-and-mark loop over them inside one transaction. -/
def RotateIssuers (expirationWindow renewalWindow now : Nat) (st : IssuerDbState) :
    IssuerDbState :=
  (st.issuers.filter (rotateEligible expirationWindow now)).foldl
    (rotateOne renewalWindow now) st

lemma rotateOne_length (renewalWindow now : Nat) (st : IssuerDbState)
    (issuer : IssuerRow) :
    (rotateOne renewalWindow now st issuer).issuers.length = st.issuers.length + 1 := by
  simp [rotateOne]

lemma rotateLoop_length (renewalWindow now : Nat) :
    ∀ (l : List IssuerRow) (st : IssuerDbState),
    (l.foldl (rotateOne renewalWindow now) st).issuers.length =
      st.issuers.length + l.length := by
  intro l
  induction l with
  | nil => intro st; rfl
  | cons a l ih =>
    intro st
    rw [List.foldl_cons, ih (rotateOne renewalWindow now st a), rotateOne_length]
    simp [Nat.add_assoc, Nat.add_comm 1 l.length]

lemma RotateIssuers_noop (expirationWindow renewalWindow now : Nat)
    (st : IssuerDbState)
    (h : st.issuers.filter (rotateEligible expirationWindow now) = []) :
    RotateIssuers expirationWindow renewalWindow now st = st := by
  unfold RotateIssuers
  rw [h]
  rfl

lemma rotate_filter_empty_after (expirationWindow renewalWindow now : Nat)
    (st : IssuerDbState) (i : IssuerRow)
    (hone : st.issuers.filter (rotateEligible expirationWindow now) = [i])
    (hwr : expirationWindow ≤ renewalWindow) :
    (RotateIssuers expirationWindow renewalWindow now st).issuers.filter
      (rotateEligible expirationWindow now) = [] := by
  have helig : rotateEligible expirationWindow now i = true := by
    have : i ∈ st.issuers.filter (rotateEligible expirationWindow now) := by
      rw [hone]; exact List.mem_singleton.mpr rfl
    exact List.of_mem_filter this
  have hstep : RotateIssuers expirationWindow renewalWindow now st =
      rotateOne renewalWindow now st i := by
    unfold RotateIssuers
    rw [hone]
    rfl
  rw [hstep]
  rw [List.filter_eq_nil_iff]
  intro x hx
  simp only [rotateOne, List.mem_map, List.mem_append] at hx
  obtain ⟨y, hy, hxy⟩ := hx
  obtain ⟨e, he, hlt1, hlt2⟩ : ∃ e, i.expiresAt = some e ∧ now < e ∧
      e < now + expirationWindow := by
    unfold rotateEligible at helig
    rcases hcase : i.expiresAt with _ | e
    · rw [hcase] at helig; cases helig
    · rw [hcase] at helig
      simp only [Bool.and_eq_true, decide_eq_true_eq] at helig
      exact ⟨e, rfl, helig.1.2, helig.2⟩
  rcases hy with hmem | hsucc
  · by_cases hid : y.id = i.id
    · rw [if_pos hid] at hxy
      subst hxy
      simp [rotateEligible]
      rcases y.expiresAt with _ | e2 <;> simp
    · rw [if_neg hid] at hxy
      subst hxy
      intro habs
      have : y ∈ st.issuers.filter (rotateEligible expirationWindow now) :=
        List.mem_filter.mpr ⟨hmem, habs⟩
      rw [hone] at this
      exact hid (by rw [List.mem_singleton.mp this])
  · have hys : y = successorRow renewalWindow now st.keyCtr i :=
      List.mem_singleton.mp hsucc
    subst hys
    have hexp : (successorRow renewalWindow now st.keyCtr i).expiresAt =
        some (e + renewalWindow) := by
      simp [successorRow, he]
    by_cases hid : (successorRow renewalWindow now st.keyCtr i).id = i.id
    · rw [if_pos hid] at hxy
      subst hxy
      simp only [rotateEligible, hexp]
      simp only [Bool.and_eq_true, decide_eq_true_eq, not_and]
      intro _ _
      omega
    · rw [if_neg hid] at hxy
      subst hxy
      simp only [rotateEligible, hexp]
      simp only [Bool.and_eq_true, decide_eq_true_eq, not_and]
      intro _ _
      omega

/-- C6 amended: with no issuer inside the rotation window, any number of
ticks leaves the state unchanged; with exactly one eligible issuer and a
renewal window at least as large as the expiration window (as in the 30
and 7 day defaults), any positive number of ticks inserts exactly one new
row, because a row whose rotated_at is set is never selected again and the
successor expires beyond the window. -/
theorem rotateIssuers_idempotent (expirationWindow renewalWindow now k : Nat)
    (st : IssuerDbState) :
    ((st.issuers.filter (rotateEligible expirationWindow now) = []) →
      (RotateIssuers expirationWindow renewalWindow now)^[k] st = st)
    ∧ (∀ i, st.issuers.filter (rotateEligible expirationWindow now) = [i] →
      expirationWindow ≤ renewalWindow → 1 ≤ k →
      ((RotateIssuers expirationWindow renewalWindow now)^[k] st).issuers.length =
        st.issuers.length + 1) := by
  constructor
  · intro h
    exact Function.iterate_fixed
      (RotateIssuers_noop expirationWindow renewalWindow now st h) k
  · intro i hone hwr hk
    obtain ⟨k2, rfl⟩ : ∃ k2, k = k2 + 1 := ⟨k - 1, by omega⟩
    rw [Function.iterate_succ_apply]
    have hafter := rotate_filter_empty_after expirationWindow renewalWindow now st i
      hone hwr
    rw [Function.iterate_fixed
      (RotateIssuers_noop expirationWindow renewalWindow now _ hafter) k2]
    unfold RotateIssuers
    rw [hone]
    exact rotateLoop_length renewalWindow now [i] st

/-- Example issuer expiring one unit from time zero. -/
def exIssuerImminent : IssuerRow := ⟨0, "demo", 0, 40, 0, some 1, none, none, 2⟩

/-- Counterexample to C6 as stated: with a renewal window (0) smaller than
the expiration window (7), the successor of the single eligible issuer is
itself eligible, so two ticks insert two rows where the claim promises
exactly one successor for every positive number of ticks. -/
theorem rotateIssuers_not_idempotent_small_renewal :
    ((RotateIssuers 7 0 0)^[2] ⟨[exIssuerImminent], 1, []⟩).issuers.length = 3
    ∧ ((RotateIssuers 7 0 0)^[2] ⟨[exIssuerImminent], 1, []⟩).issuers.length ≠
        (⟨[exIssuerImminent], 1, []⟩ : IssuerDbState).issuers.length + 1 := by
  decide

/-- Witness for C6 at an empty eligible set and at a singleton eligible
set with the default 7 and 30 day windows and two ticks. -/
theorem rotateIssuers_idempotent_witness :
    ((RotateIssuers 7 30 5)^[2] ⟨[exIssuerRetiredEarly], 9, []⟩ =
        ⟨[exIssuerRetiredEarly], 9, []⟩)
    ∧ ((RotateIssuers 7 30 5)^[2] ⟨[exIssuerOld], 50, []⟩).issuers.length =
        (⟨[exIssuerOld], 50, []⟩ : IssuerDbState).issuers.length + 1 :=
  ⟨(rotateIssuers_idempotent 7 30 5 2 ⟨[exIssuerRetiredEarly], 9, []⟩).1 (by decide),
    (rotateIssuers_idempotent 7 30 5 2 ⟨[exIssuerOld], 50, []⟩).2 exIssuerOld
      (by decide) (by decide) (by decide)⟩

/-- Embedding of RotateIssuers of the latest snapshot: begin a
transaction, Select the eligible rows — passing the destination slice by
value, so the byPointer flag is false — and, had the select produced rows,
run the insert-and-mark loop (whose insert carries version 2) and commit;
the error return rolls the transaction back, leaving the state unchanged. -/
def RotateIssuersV7 (expirationWindow renewalWindow now : Nat)
    (st : IssuerDbState) : Except SrvError Unit × IssuerDbState :=
  match sqlxSelectIssuers false
      (st.issuers.filter (rotateEligible expirationWindow now)) with
  | Except.error e => (Except.error e, st)
  | Except.ok issuers => (Except.ok (), issuers.foldl (rotateOne renewalWindow now) st)

/-- C5: every rotation tick of the cited RotateIssuers errors at the
by-value Select before the loop, rolls back and changes nothing: no
successor row is inserted and rotated_at stays unset even for an issuer
the rotation predicate selects, as at the concrete eligible input. -/
theorem rotateIssuersV7_tick_never_rotates :
    (∀ (expirationWindow renewalWindow now : Nat) (st : IssuerDbState),
      RotateIssuersV7 expirationWindow renewalWindow now st =
        (Except.error
          (SrvError.sqlx "must pass a pointer, not a value, to StructScan destination"),
         st))
    ∧ rotateEligible 7 5 exIssuerOld = true
    ∧ (RotateIssuersV7 7 30 5 ⟨[exIssuerOld], 50, []⟩).2 = ⟨[exIssuerOld], 50, []⟩
    ∧ (∀ r ∈ (RotateIssuersV7 7 30 5 ⟨[exIssuerOld], 50, []⟩).2.issuers,
        r.rotatedAt = none) := by
  exact ⟨fun w r now st => rfl, by decide, by decide, by decide⟩

/-- WHERE clause of the retirement select: expires_at IS NOT NULL AND
expires_at <= now() AND rotated_at IS NOT NULL. -/
def retireEligible (now : Nat) (i : IssuerRow) : Bool :=
  match i.expiresAt with
  | some e => decide (e ≤ now) && decide (i.rotatedAt ≠ none)
  | none => false

/-- An Exec call: the number of placeholders in the statement text against
the number of bind arguments supplied; the driver rejects a mismatch
before running the statement, otherwise the effect of the statement is
applied. -/
def execWithArgs (placeholders args : Nat) (effect : IssuerDbState → IssuerDbState)
    (st : IssuerDbState) : Except SrvError IssuerDbState :=
  if placeholders = args then Except.ok (effect st)
  else Except.error (SrvError.bindMismatch args placeholders)

/-- Loop body of retireIssuers: for each selected issuer, Exec the
partition CREATE TABLE; the statement text contains no placeholder (its $1
sits inside single quotes, a literal) while one bind argument is supplied,
so the Exec is rejected and the loop stops at its first iteration. -/
def retirePartitionLoop : List IssuerRow → IssuerDbState → Except SrvError IssuerDbState
  | [], st => Except.ok st
  | issuer :: rest, st =>
    match execWithArgs 0 1
        (fun s => { s with
          partitions := s.partitions ++ ["redemptions_" ++ toString issuer.id] }) st with
    | Except.error e => Except.error e
    | Except.ok st2 => retirePartitionLoop rest st2

/-- Embedding of retireIssuers: begin a transaction, select the eligible
rows, run the partition loop and commit; an error from the loop is
returned and the deferred rollback discards the transaction, so the state
is unchanged. The loop body contains no UPDATE of the issuers table. -/
def retireIssuers (now : Nat) (st : IssuerDbState) :
    Except SrvError Unit × IssuerDbState :=
  match retirePartitionLoop (st.issuers.filter (retireEligible now)) st with
  | Except.error e => (Except.error e, st)
  | Except.ok st2 => (Except.ok (), st2)

/-- Example rotated issuer whose expiry has passed by time 10. -/
def exIssuerExpiredRotated : IssuerRow := ⟨6, "demo", 6, 40, 0, some 5, some 4, none, 2⟩

/-- C7: a retirement tick never changes anything: with at least one
selected issuer the partition Exec is rejected (one bind argument against
a zero-placeholder statement) and the transaction rolls back, and with
none selected the loop is empty, so no partition is ever created; and no
code path sets retired_at, so after the tick the selected issuer still has
retired_at unset and is still in the non-retired set of its type. -/
theorem retireIssuers_never_sets_retiredAt :
    (∀ (now : Nat) (st : IssuerDbState), (retireIssuers now st).2 = st)
    ∧ retireEligible 10 exIssuerExpiredRotated = true
    ∧ retireIssuers 10 ⟨[exIssuerExpiredRotated], 20, []⟩ =
        (Except.error (SrvError.bindMismatch 1 0), ⟨[exIssuerExpiredRotated], 20, []⟩)
    ∧ (retireIssuers 10 ⟨[exIssuerExpiredRotated], 20, []⟩).2.partitions = []
    ∧ (∀ r ∈ (retireIssuers 10 ⟨[exIssuerExpiredRotated], 20, []⟩).2.issuers,
        r.retiredAt = none)
    ∧ exIssuerExpiredRotated ∈ nonRetiredOfType "demo"
        (retireIssuers 10 ⟨[exIssuerExpiredRotated], 20, []⟩).2.issuers := by
  refine ⟨?_, by decide, by decide, by decide, by decide, by decide⟩
  intro now st
  cases hsel : st.issuers.filter (retireEligible now) with
  | nil => simp [retireIssuers, hsel, retirePartitionLoop]
  | cons a rest => simp [retireIssuers, hsel, retirePartitionLoop, execWithArgs]

/-- Database-layer errors a rotation or retirement phase can surface. -/
inductive DbError where
  | backendUnavailable
  | queryFailed (msg : String)
deriving DecidableEq, Repr

/-- Outcome of one cron tick. -/
inductive CronOutcome where
  | completed
  | panicked
deriving DecidableEq, Repr

/-- Embedding of the cron closure installed by SetupCronTasks: run
rotateIssuers and panic on a non-nil error, then run retireIssuers and
panic on a non-nil error. -/
def SetupCronTasksTick (rotateResult retireResult : Except DbError Unit) :
    CronOutcome :=
  match rotateResult with
  | Except.error _ => CronOutcome.panicked
  | Except.ok _ =>
    match retireResult with
    | Except.error _ => CronOutcome.panicked
    | Except.ok _ => CronOutcome.completed

/-- Behaviour of one pass of the jobWorker loop body. -/
inductive WorkerStep where
  | panics
  | waitsForNextTick
  | runsAgain
deriving DecidableEq, Repr

/-- Embedding of the jobWorker loop body: a non-nil job error panics;
otherwise an unattempted pass waits on the ticker before looping and an
attempted one loops immediately. -/
def jobWorkerStep (attempted : Bool) (jobError : Option DbError) : WorkerStep :=
  if jobError.isSome then WorkerStep.panics
  else if !attempted then WorkerStep.waitsForNextTick
  else WorkerStep.runsAgain

/-- Counterexample to C8 as stated: a failing rotation phase makes the
cron tick panic, terminating the process, instead of completing and
retrying on the next tick; the jobWorker loop panics the same way. -/
theorem cronTick_panics_on_error_counterexample :
    SetupCronTasksTick (Except.error DbError.backendUnavailable) (Except.ok ()) =
        CronOutcome.panicked
    ∧ CronOutcome.panicked ≠ CronOutcome.completed
    ∧ jobWorkerStep true (some DbError.backendUnavailable) = WorkerStep.panics := by
  decide

/-- C8 amended: every per-tick error from the rotation or the retirement
phase makes the controller panic (terminating the process) rather than
continue to the next tick. -/
theorem cronTick_panics_on_every_error (e : DbError)
    (retireResult : Except DbError Unit) (attempted : Bool) :
    SetupCronTasksTick (Except.error e) retireResult = CronOutcome.panicked
    ∧ SetupCronTasksTick (Except.ok ()) (Except.error e) = CronOutcome.panicked
    ∧ jobWorkerStep attempted (some e) = WorkerStep.panics := by
  refine ⟨rfl, rfl, ?_⟩
  simp [jobWorkerStep]

/-- Values stored in the interface-typed caches map. -/
inductive CacheVal where
  | issuerVal (issuer : IssuerRow)
  | redemptionVal (redemption : RedemptionV2)
deriving DecidableEq, Repr

/-- The caches field of the server: a map from cache name to a cache
instance, itself a map from string key to value. -/
abbrev CachesMap := List (String × List (String × CacheVal))

/-- A Get through the caches map: indexing the Go map with a missing
cache name yields the nil interface value, and calling Get on it faults,
modelled as the nil-fault result. -/
inductive GoResult (α : Type) where
  | ok (val : α)
  | nilCacheFault
deriving DecidableEq, Repr

/-- Look up a cache instance by name and a key inside it; a missing cache
name is the nil-interface method call. -/
def cachesGet (caches : CachesMap) (cacheName key : String) :
    GoResult (Option CacheVal) :=
  match caches.find? (fun e => decide (e.1 = cacheName)) with
  | none => GoResult.nilCacheFault
  | some store =>
    GoResult.ok ((store.2.find? (fun e => decide (e.1 = key))).map (fun e => e.2))

/-- Embedding of initDb: with caching enabled the caches map is created
with exactly the two entries named issuers and redemptions, both empty;
otherwise the caches map stays nil. -/
def initDbCaches (cachingEnabled : Bool) : Option CachesMap :=
  if cachingEnabled then some [("issuers", []), ("redemptions", [])] else none

/-- Embedding of the audit-path fetchIssuer: with a non-nil caches map it
first calls Get on the cache named issuer; a hit returns the cached
issuer, a miss falls through to SELECT by id with the retired filter. A
typed hit of the wrong shape cannot be produced by this code and is read
as a miss. -/
def fetchIssuerById (ocaches : Option CachesMap) (db : List IssuerRow)
    (issuerID : Nat) : GoResult (Except SrvError IssuerRow) :=
  let dbLookup : Except SrvError IssuerRow :=
    match db.find? (fun i => decide (i.id = issuerID ∧ i.retiredAt = none)) with
    | some issuer => Except.ok issuer
    | none => Except.error SrvError.issuerNotFound
  match ocaches with
  | some caches =>
    match cachesGet caches "issuer" (toString issuerID) with
    | GoResult.nilCacheFault => GoResult.nilCacheFault
    | GoResult.ok (some (CacheVal.issuerVal issuer)) => GoResult.ok (Except.ok issuer)
    | GoResult.ok _ => GoResult.ok dbLookup
  | none => GoResult.ok dbLookup

/-- Embedding of the audit-path fetchRedemptionV2: with a non-nil caches
map it first calls Get on the cache named redemptionsV2 under the
issuer-colon-token key; a hit returns the cached redemption, a miss falls
through to SELECT from the redemptions_v2 table. -/
def fetchRedemptionV2ById (ocaches : Option CachesMap)
    (redemptionsV2Table : List RedemptionV2) (issuerID tokenID : String) :
    GoResult (Except SrvError RedemptionV2) :=
  let dbLookup : Except SrvError RedemptionV2 :=
    match redemptionsV2Table.find?
        (fun r => decide (r.id = tokenID ∧ r.issuerId = issuerID)) with
    | some redemption => Except.ok redemption
    | none => Except.error SrvError.redemptionNotFound
  match ocaches with
  | some caches =>
    match cachesGet caches "redemptionsV2" (issuerID ++ ":" ++ tokenID) with
    | GoResult.nilCacheFault => GoResult.nilCacheFault
    | GoResult.ok (some (CacheVal.redemptionVal redemption)) =>
      GoResult.ok (Except.ok redemption)
    | GoResult.ok _ => GoResult.ok dbLookup
  | none => GoResult.ok dbLookup

/-- C10: initDb creates only the caches named issuers and redemptions,
while the audit-lookup path reads the caches named issuer and
redemptionsV2, so with caching enabled both fetchIssuer and
fetchRedemptionV2 index a missing cache map entry and fault on the nil
interface, for any input. -/
theorem auditPath_cache_key_mismatch_faults :
    fetchIssuerById (initDbCaches true) [exIssuerNew] 2 = GoResult.nilCacheFault
    ∧ fetchRedemptionV2ById (initDbCaches true) [] "2" "token1" =
        GoResult.nilCacheFault := by
  decide

end ChallengeBypass
